import Mathlib

/-!
Verification of the RAG (retrieval-augmented generation) core of a
webhook-driven chat assistant (`app.py`).

The source is a single Python file.  Its retrieval core is shallowly
embedded here:

* vectors (`list[float]`) become `List ℝ`;
* the SQLite `knowledge_base` table becomes a `List KnowledgeRow`
  (`content`, nullable `embedding_json` as `Option (List ℝ)`);
* the remote embedding call `get_embedding` becomes an explicit
  function parameter `embed : String → Option (List ℝ)` (`none` models
  the `None` returned on any embedding failure, and the Python
  truthiness test `if not query_embedding` additionally treats an
  empty vector as a failure);
* a failed SQLite read (`no such table`, caught and turned into an
  empty result) is modelled by passing `none` for the table;
* Python's `list.sort(key=lambda x: x[0])` is a stable sort by the
  first component; it is modelled by `List.insertionSort` with the
  by-distance relation `byDist`, which Mathlib's `insertionSort` sorts
  stably (equal keys keep their original relative order);
* `"\n".join(...)` becomes `joinWith NEWLINE`;
* the remote generation call inside `GEMINI_response` becomes a
  parameter `ℕ → GenOutcome` giving the outcome of each attempt, and
  the retry loop records the `time.sleep` delays it performs;
* every modelled function is total: the Python code catches the
  exceptions of its remote/DB calls on the paths modelled here, so no
  exception escapes to the caller.
-/

/-- Cosine-distance numerator of `cosine_distance`:
`sum(v1 * v2 for v1, v2 in zip(vec1, vec2))`.  Note that Python's
`zip` silently truncates to the shorter list; no dimensionality check
is performed. -/
noncomputable def dot_product (vec1 vec2 : List ℝ) : ℝ :=
  ((vec1.zip vec2).map fun p => p.1 * p.2).sum

/-- `math.sqrt(sum(v1 * v1 for v1 in vec1))` — Euclidean magnitude of a
vector, as computed inside `cosine_distance`. -/
noncomputable def magnitude (vec : List ℝ) : ℝ :=
  Real.sqrt ((vec.map fun v => v * v).sum)

/-- `cosine_distance(vec1, vec2)` from `app.py`: `1 - dot/( |v1| * |v2| )`,
returning `1.0` when either magnitude is `0` (the code's explicit
division-by-zero guard). -/
noncomputable def cosine_distance (vec1 vec2 : List ℝ) : ℝ :=
  if magnitude vec1 = 0 ∨ magnitude vec2 = 0 then 1
  else 1 - dot_product vec1 vec2 / (magnitude vec1 * magnitude vec2)

/-- `RAG_CONFIDENCE_THRESHOLD = 0.5` from `app.py`. -/
noncomputable def RAG_CONFIDENCE_THRESHOLD : ℝ := 0.5

/-- One row of the SQLite `knowledge_base` table: `content TEXT NOT NULL`
and a nullable `embedding_json` column, here already deserialized
(`json.loads` of a stored `json.dumps` is the identity on the vector).
`none` models a SQL `NULL` (the row is skipped by the scoring loop's
`if embedding_json:` test). -/
structure KnowledgeRow where
  content : String
  embedding_json : Option (List ℝ)

/-- The scoring loop of `query_knowledge_base`: for each row whose
`embedding_json` is present, append `(cosine_distance(query, item), content)`,
in table scan order. -/
noncomputable def score_rows (query_embedding : List ℝ) (rows : List KnowledgeRow) :
    List (ℝ × String) :=
  rows.filterMap fun row =>
    row.embedding_json.map fun item_embedding =>
      (cosine_distance query_embedding item_embedding, row.content)

/-- The sort key of `results.sort(key=lambda x: x[0])`: compare scored
pairs by their distance component. -/
def byDist (a b : ℝ × String) : Prop := a.1 ≤ b.1

noncomputable instance : DecidableRel byDist :=
  fun a b => inferInstanceAs (Decidable (a.1 ≤ b.1))

instance : IsTotal (ℝ × String) byDist := ⟨fun a b => le_total a.1 b.1⟩

instance : IsTrans (ℝ × String) byDist := ⟨fun _ _ _ => le_trans⟩

/-- `results.sort(key=lambda x: x[0])` — Python's `list.sort` is a
stable sort by the given key; `List.insertionSort` with `byDist` is
stable in the same sense (equal distances keep scan order), so the two
agree on every input. -/
noncomputable def sortResults (results : List (ℝ × String)) : List (ℝ × String) :=
  results.insertionSort byDist

/-- The separator of `"\n".join(context)`. -/
def NEWLINE : String := "\n"

/-- Python's `sep.join(xs)`. -/
def joinWith (sep : String) : List String → String
  | [] => ""
  | [a] => a
  | a :: b :: rest => a ++ sep ++ joinWith sep (b :: rest)

/-- `query_knowledge_base(query_text, top_k=5)` from `app.py`.

`embed` stands for `get_embedding` (with `none` covering both a `None`
return and — via the extra `some []` case, matching `if not
query_embedding` — an empty vector); `db` is the table contents, with
`none` modelling a failed `SELECT` (the caught `no such table` path).
Returns the pair `(context, is_high_confidence)`. -/
noncomputable def query_knowledge_base (embed : String → Option (List ℝ))
    (db : Option (List KnowledgeRow)) (query_text : String) (top_k : ℕ) :
    String × Bool :=
  match embed query_text with
  | none => ("", false)
  | some [] => ("", false)
  | some (q0 :: qtail) =>
    match db with
    | none => ("", false)
    | some rows =>
      let results := sortResults (score_rows (q0 :: qtail) rows)
      let is_high_confidence : Bool :=
        match results with
        | [] => false
        | best :: _ => if best.1 < RAG_CONFIDENCE_THRESHOLD then true else false
      (joinWith NEWLINE ((results.take top_k).map Prod.snd), is_high_confidence)

/-- The request assembled by the policy section of `GEMINI_response`:
the dynamic `tools` configuration (`[]` or the Google-Search tool),
the system instruction, and the prompt passed to `generate_content`.
The tool dictionary `{"google_search": {}}` is modelled by the tag
string `"google_search"`. -/
structure GenRequest where
  tools_config : List String
  system_instruction : String
  final_prompt : String

/-- The system instruction of the high-confidence branch (context
present, `is_high_confidence` true): answer strictly from CONTEXT. -/
def high_instruction (rag_context : String) : String :=
  "你是一位企業內部客服助理。你必須且只能根據下列 CONTEXT 來回答使用者的問題。 請將 CONTEXT 中的資訊直接轉換為自然語言回答。 如果 CONTEXT 無法回答問題，請簡潔地回答：「很抱歉，在我的知識庫中沒有找到相關資訊。」\n\n" ++
    s!"CONTEXT:\n---\n{rag_context}\n---"

/-- The system instruction of the low-confidence branch (context
present, tier low): prefer Google Search, blend with CONTEXT. -/
def low_instruction (rag_context : String) : String :=
  "你是一位樂於助人的助理。請根據使用者的問題回答。 **優先**使用 Google Search 獲取最新資訊，並同時參考提供的 CONTEXT。 如果 CONTEXT 相關，請結合；如果 CONTEXT 不相關，請忽略並僅使用 Google Search 的資訊來回答。\n\n" ++
    s!"CONTEXT:\n---\n{rag_context}\n---"

/-- The system instruction of the no-context branch. -/
def no_context_instruction : String :=
  "你是一位樂於助人的助理，請使用最新資訊來回答問題。"

/-- The prompt/policy assembly of `GEMINI_response` (the part between
the RAG retrieval and the retry loop): `tools_config = []` exactly on
the `if rag_context: ... if is_high_confidence:` path, the Google
Search tool on every other path. -/
noncomputable def GEMINI_request (embed : String → Option (List ℝ))
    (db : Option (List KnowledgeRow)) (user_text : String) : GenRequest :=
  let r := query_knowledge_base embed db user_text 5
  let rag_context := r.1
  let is_high_confidence := r.2
  if rag_context ≠ "" then
    if is_high_confidence then
      ⟨[], high_instruction rag_context, user_text⟩
    else
      ⟨["google_search"], low_instruction rag_context, user_text⟩
  else
    ⟨["google_search"], no_context_instruction, user_text⟩

/-- Python's `s.startswith(pre)`: character-level prefix test.
(Defined over the character list so that concrete instances reduce.) -/
def py_startswith (s pre : String) : Bool :=
  pre.data.isPrefixOf s.data

/-- Python's character slicing `s[n:]`. -/
def py_drop (s : String) (n : ℕ) : String :=
  ⟨s.data.drop n⟩

/-- Python's character slicing `s[:n]`. -/
def py_take (s : String) (n : ℕ) : String :=
  ⟨s.data.take n⟩

/-- Python's `s.strip()`: remove leading and trailing whitespace
characters. -/
def py_strip (s : String) : String :=
  ⟨((s.data.dropWhile Char.isWhitespace).reverse.dropWhile Char.isWhitespace).reverse⟩

/-- Outcome of one `client.models.generate_content` call inside the
retry loop of `GEMINI_response`:

* `success text` — the call returned and `response.text` was truthy;
* `blocked detail` — the call returned but `response.text` was empty
  (the code then returns an error message immediately, no retry);
* `apiError` — the call raised `APIError` (the transient provider
  error that the loop retries);
* `unknownError` — the call raised any other exception (immediate
  user-safe message, no retry). -/
inductive GenOutcome where
  | success (text : String)
  | blocked (detail : String)
  | apiError
  | unknownError

/-- The 2000-character cap applied to the answer:
`answer[:2000] + "…（回覆過長，已截斷）"` when `len(answer) > 2000`. -/
def truncate_answer (answer : String) : String :=
  if answer.length > 2000 then py_take answer 2000 ++ "…（回覆過長，已截斷）" else answer

/-- The fixed user-safe fallback returned when every retry of the
generation call failed with `APIError`. -/
def GEMINI_fallback : String := "⚠️ 目前系統忙碌或 Gemini API 無法回應，請稍後再試。"

/-- The immediate reply when `response.text` is empty or blocked
(`f"⚠️ 內容生成失敗：{error_detail}"`). -/
def blocked_reply (detail : String) : String := s!"⚠️ 內容生成失敗：{detail}"

/-- The immediate reply on an unexpected (non-`APIError`) exception. -/
def unknown_error_reply : String := "⚠️ 發生未知錯誤，請稍後再試。"

/-- Observable result of the retry loop: the reply text, the list of
`time.sleep` delays actually performed, and how many generation
attempts were made. -/
structure GenRun where
  reply : String
  sleeps : List ℕ
  attempts_made : ℕ

/-- The `for attempt in range(max_retries)` loop of `GEMINI_response`,
with the remaining iteration count as fuel (`fuel = max_retries -
attempt`; the code's `attempt < max_retries - 1` test is `fuel ≠ 0`
after peeling one iteration).  On `APIError` with retries left it
sleeps `delay` seconds, doubles `delay` and continues; on the last
attempt it returns `GEMINI_fallback`. -/
def attemptLoop (attempts : ℕ → GenOutcome) : ℕ → ℕ → ℕ → GenRun
  | 0, attempt, _ => ⟨GEMINI_fallback, [], attempt⟩
  | fuel + 1, attempt, delay =>
    match attempts attempt with
    | .success text => ⟨truncate_answer (py_strip text), [], attempt + 1⟩
    | .blocked detail => ⟨blocked_reply detail, [], attempt + 1⟩
    | .apiError =>
      if fuel = 0 then ⟨GEMINI_fallback, [], attempt + 1⟩
      else
        let rest := attemptLoop attempts fuel (attempt + 1) (delay * 2)
        ⟨rest.reply, delay :: rest.sleeps, rest.attempts_made⟩
    | .unknownError => ⟨unknown_error_reply, [], attempt + 1⟩

/-- The whole retry loop with the code's constants
`max_retries = 3`, initial `delay = 2`. -/
def GEMINI_generate (attempts : ℕ → GenOutcome) : GenRun :=
  attemptLoop attempts 3 0 2

/-- `GEMINI_response(user_text)`: early warning when the Gemini client
failed to initialize, otherwise RAG retrieval + policy assembly
(`GEMINI_request`) followed by the retry loop.  `attempts` gives, per
assembled request, the outcome of each generation attempt. -/
noncomputable def GEMINI_response (client_ok : Bool)
    (embed : String → Option (List ℝ)) (db : Option (List KnowledgeRow))
    (attempts : GenRequest → ℕ → GenOutcome) (user_text : String) : String :=
  if !client_ok then "⚠️ Gemini 客戶端未成功初始化，請檢查您的 GEMINI_API_KEY 。"
  else (GEMINI_generate (attempts (GEMINI_request embed db user_text))).reply

/-- Failure message of `add_new_knowledge` when the Gemini client was
never initialized (`if not client`). -/
def client_error_message : String := "Gemini API 客戶端未初始化，無法生成向量。"

/-- Failure message of `add_new_knowledge` when `get_embedding`
returned no vector (`if not embedding`). -/
def embed_error_message : String :=
  "無法呼叫 Gemini API 生成知識的向量 (Embedding)，請檢查 API Key 或重試。"

/-- Failure message of `add_new_knowledge` when the SQLite `INSERT`
raised (the code interpolates the exception text; the detail is
irrelevant to the claims and elided here). -/
def db_error_message : String := "資料庫寫入失敗: (資料庫錯誤)"

/-- Success message of `add_new_knowledge` (an f-string around the
stored content). -/
def add_success_message (content : String) : String :=
  s!"成功將知識新增至資料庫：\n「{content}」\n\n新的知識將立即用於問答檢索。"

/-- `add_new_knowledge(content)` from `app.py`.  `client_ok` models the
truthiness of the module-level `client`; `embed` models
`get_embedding` (`none` = failure, and `some []` is also rejected by
the `if not embedding` truthiness test); `write_ok` models whether the
SQLite `INSERT` succeeds.  Returns the new table contents together
with the `(success, message)` pair the Python function returns. -/
def add_new_knowledge (client_ok : Bool) (embed : String → Option (List ℝ))
    (write_ok : Bool) (store : List KnowledgeRow) (content : String) :
    List KnowledgeRow × Bool × String :=
  if !client_ok then (store, false, client_error_message)
  else
    match embed content with
    | none => (store, false, embed_error_message)
    | some [] => (store, false, embed_error_message)
    | some (e0 :: etail) =>
      if write_ok then
        (store ++ [⟨content, some (e0 :: etail)⟩], true, add_success_message content)
      else
        (store, false, db_error_message)

/-- `ADD_COMMAND = "/新增知識:"` from `handle_text_message`. -/
def ADD_COMMAND : String := "/新增知識:"

/-- The usage reply sent when the ingestion command carries no content
after trimming. -/
def usage_message : String :=
  s!"請在指令後提供要新增的知識內容。格式：{ADD_COMMAND} [您的知識]"

/-- Reply formatting of the ingestion branch of `handle_text_message`:
`✅` plus the message on success, `❌ 新增知識失敗：` plus the message on
failure. -/
def ingest_reply (r : List KnowledgeRow × Bool × String) : String :=
  if r.2.1 then s!"✅ {r.2.2}" else s!"❌ 新增知識失敗：{r.2.2}"

/-- `handle_text_message` from `app.py`, restricted to the reply text
it computes and the store it leaves behind.  A message starting with
`ADD_COMMAND` is an ingestion command: the content is everything after
the prefix, trimmed (`user_msg[len(ADD_COMMAND):].strip()`); empty
content yields the usage message without touching the store or calling
the embedder.  Every other message goes to `GEMINI_response` with the
current store as the knowledge base. -/
noncomputable def handle_text_message (client_ok : Bool)
    (embed : String → Option (List ℝ)) (write_ok : Bool)
    (attempts : GenRequest → ℕ → GenOutcome) (store : List KnowledgeRow)
    (user_msg : String) : List KnowledgeRow × String :=
  if py_startswith user_msg ADD_COMMAND then
    let knowledge_content := py_strip (py_drop user_msg ADD_COMMAND.length)
    if knowledge_content = "" then
      (store, usage_message)
    else
      let r := add_new_knowledge client_ok embed write_ok store knowledge_content
      (r.1, ingest_reply r)
  else
    (store, GEMINI_response client_ok embed (some store) attempts user_msg)

/-- The result of `sortResults` is sorted by non-decreasing distance. -/
theorem sortResults_sorted (l : List (ℝ × String)) :
    List.Sorted byDist (sortResults l) :=
  List.sorted_insertionSort byDist l

/-- `sortResults` permutes its input. -/
theorem sortResults_perm (l : List (ℝ × String)) : List.Perm (sortResults l) l :=
  List.perm_insertionSort byDist l

/-- Stability of the sort: filtering by any predicate that is
`byDist`-compatible (in particular, filtering one equal-distance class)
commutes with `sortResults`, i.e. tied elements keep their original
relative order. -/
theorem sortResults_filter_eq (P : ℝ × String → Bool)
    (hP : ∀ a b, P a = true → P b = true → byDist a b)
    (l : List (ℝ × String)) :
    (sortResults l).filter P = l.filter P := by
  have hpw : (l.filter P).Pairwise byDist := by
    apply List.pairwise_of_forall_mem_list
    intro a ha b hb
    exact hP a b (List.mem_filter.mp ha).2 (List.mem_filter.mp hb).2
  have hsub : List.Sublist (l.filter P) (sortResults l) :=
    List.sublist_insertionSort hpw (List.filter_sublist l)
  have hsub2 : List.Sublist (l.filter P) ((sortResults l).filter P) := by
    have h := hsub.filter P
    simpa using h
  have hperm : List.Perm ((sortResults l).filter P) (l.filter P) :=
    (sortResults_perm l).filter P
  exact (hsub2.eq_of_length hperm.length_eq.symm).symm

/-- The head of the sorted result list is a scored pair of minimal
distance. -/
theorem sortResults_head_min {l t : List (ℝ × String)} {x : ℝ × String}
    (h : sortResults l = x :: t) : x ∈ l ∧ ∀ y ∈ l, x.1 ≤ y.1 := by
  have hperm : List.Perm (sortResults l) l := sortResults_perm l
  constructor
  · exact hperm.subset (h ▸ List.mem_cons_self x t)
  · intro y hy
    have hy' : y ∈ x :: t := h ▸ hperm.symm.subset hy
    rcases List.mem_cons.mp hy' with rfl | hmem
    · exact le_refl _
    · have hs : List.Sorted byDist (x :: t) := h ▸ sortResults_sorted l
      exact List.rel_of_sorted_cons hs y hmem

/-- Evaluation of `query_knowledge_base` on the normal path: embedding
succeeded with a non-empty vector and the table read succeeded. -/
theorem query_eval (embed : String → Option (List ℝ))
    (db : Option (List KnowledgeRow)) (q0 : ℝ) (qtail : List ℝ)
    (rows : List KnowledgeRow) (query_text : String) (top_k : ℕ)
    (hq : embed query_text = some (q0 :: qtail)) (hdb : db = some rows) :
    query_knowledge_base embed db query_text top_k =
      (joinWith NEWLINE
          (((sortResults (score_rows (q0 :: qtail) rows)).take top_k).map Prod.snd),
        match sortResults (score_rows (q0 :: qtail) rows) with
        | [] => false
        | best :: _ => if best.1 < RAG_CONFIDENCE_THRESHOLD then true else false) := by
  subst hdb
  simp only [query_knowledge_base, hq]

/-- A sum of squares of reals is non-negative. -/
theorem sum_sq_nonneg (l : List ℝ) : 0 ≤ (l.map fun v => v * v).sum := by
  induction l with
  | nil => simp
  | cons a t ih =>
    simp only [List.map_cons, List.sum_cons]
    have ha := mul_self_nonneg a
    linarith

/-- A sum of squares of reals vanishes iff every entry vanishes. -/
theorem sum_sq_eq_zero_iff (l : List ℝ) :
    (l.map fun v => v * v).sum = 0 ↔ ∀ x ∈ l, x = 0 := by
  induction l with
  | nil => simp
  | cons a t ih =>
    simp only [List.map_cons, List.sum_cons, List.mem_cons]
    constructor
    · intro h
      have h1 : 0 ≤ a * a := mul_self_nonneg a
      have h2 : 0 ≤ (t.map fun v => v * v).sum := sum_sq_nonneg t
      have ha : a * a = 0 := by linarith
      have ht : (t.map fun v => v * v).sum = 0 := by linarith
      intro x hx
      rcases hx with rfl | hx
      · exact mul_self_eq_zero.mp ha
      · exact (ih.mp ht) x hx
    · intro h
      have ha : a = 0 := h a (Or.inl rfl)
      have ht : ∀ x ∈ t, x = 0 := fun x hx => h x (Or.inr hx)
      rw [ha, ih.mpr ht]
      ring

/-- `magnitude` vanishes exactly on the all-zero vector. -/
theorem magnitude_eq_zero_iff (l : List ℝ) :
    magnitude l = 0 ↔ ∀ x ∈ l, x = 0 := by
  unfold magnitude
  rw [Real.sqrt_eq_zero']
  constructor
  · intro h
    exact (sum_sq_eq_zero_iff l).mp (le_antisymm h (sum_sq_nonneg l))
  · intro h
    rw [(sum_sq_eq_zero_iff l).mpr h]

/-- Magnitude of a two-entry vector. -/
theorem magnitude_pair (a b : ℝ) : magnitude [a, b] = Real.sqrt (a * a + b * b) := by
  simp [magnitude]

/-- Magnitude of a one-entry vector. -/
theorem magnitude_single (a : ℝ) : magnitude [a] = Real.sqrt (a * a) := by
  simp [magnitude]

/-- Concrete evaluation: `magnitude [1, 0] = 1`. -/
theorem magnitude_one_zero : magnitude [(1 : ℝ), 0] = 1 := by
  rw [magnitude_pair, show (1 : ℝ) * 1 + 0 * 0 = 1 by norm_num, Real.sqrt_one]

/-- Concrete evaluation: `magnitude [0, 1] = 1`. -/
theorem magnitude_zero_one : magnitude [(0 : ℝ), 1] = 1 := by
  rw [magnitude_pair, show (0 : ℝ) * 0 + 1 * 1 = 1 by norm_num, Real.sqrt_one]

/-- Concrete evaluation: `magnitude [1] = 1`. -/
theorem magnitude_one : magnitude [(1 : ℝ)] = 1 := by
  rw [magnitude_single, show (1 : ℝ) * 1 = 1 by norm_num, Real.sqrt_one]

/-- Concrete evaluation: `magnitude [1, √3] = 2`. -/
theorem magnitude_one_sqrt3 : magnitude [(1 : ℝ), Real.sqrt 3] = 2 := by
  rw [magnitude_pair, Real.mul_self_sqrt (by norm_num : (0 : ℝ) ≤ 3),
    show (1 : ℝ) * 1 + 3 = 4 by norm_num,
    show (4 : ℝ) = 2 ^ 2 by norm_num, Real.sqrt_sq (by norm_num : (0 : ℝ) ≤ 2)]

/-- Concrete evaluation: the distance between the 2-dimensional query
`[1, 0]` and the 1-dimensional stored vector `[1]` is `0` — the `zip`
truncation makes the shorter vector a perfect match. -/
theorem cosine_10_1 : cosine_distance [(1 : ℝ), 0] [1] = 0 := by
  unfold cosine_distance
  rw [magnitude_one_zero, magnitude_one, if_neg (by norm_num)]
  unfold dot_product
  simp [List.zip]

/-- Concrete evaluation: the distance between the orthogonal vectors
`[1, 0]` and `[0, 1]` is `1`. -/
theorem cosine_10_01 : cosine_distance [(1 : ℝ), 0] [0, 1] = 1 := by
  unfold cosine_distance
  rw [magnitude_one_zero, magnitude_zero_one, if_neg (by norm_num)]
  unfold dot_product
  simp [List.zip]

/-- Concrete evaluation: the distance between `[1, 0]` and `[1, √3]` is
exactly the confidence threshold `0.5`. -/
theorem cosine_boundary : cosine_distance [(1 : ℝ), 0] [1, Real.sqrt 3] = 1 / 2 := by
  unfold cosine_distance
  rw [magnitude_one_zero, magnitude_one_sqrt3, if_neg (by norm_num)]
  unfold dot_product
  simp [List.zip]
  norm_num

/-- Concrete evaluation: `magnitude [0] = 0`. -/
theorem magnitude_zero_single : magnitude [(0 : ℝ)] = 0 := by
  rw [magnitude_single, show (0 : ℝ) * 0 = 0 by norm_num, Real.sqrt_zero]

/-- Joining a list whose head is a non-empty string yields a non-empty
string. -/
theorem joinWith_cons_ne_empty (sep a : String) (l : List String)
    (ha : a ≠ "") : joinWith sep (a :: l) ≠ "" := by
  cases l with
  | nil => simpa [joinWith] using ha
  | cons b t =>
    simp only [joinWith]
    intro h
    apply ha
    have hlen := congrArg String.length h
    rw [String.length_append, String.length_append, String.length_empty] at hlen
    have hz : a.length = 0 := by omega
    have hdata : a.data = [] := List.length_eq_zero.mp hz
    exact String.ext hdata

/-- Shared sample query text for concrete witnesses. -/
def sample_query : String := "員工查詢"

/-- Shared sample ingestion content for concrete witnesses. -/
def sample_content : String := "工作時間是九點"

/-- An embedder that always fails (`get_embedding` returns `None`). -/
def embed_none : String → Option (List ℝ) := fun _ => none

/-- An embedder that always returns the 1-dimensional vector `[1]`. -/
def embed_e1 : String → Option (List ℝ) := fun _ => some [1]

/-- An embedder that always returns the 2-dimensional vector `[1, 0]`. -/
def embed_e10 : String → Option (List ℝ) := fun _ => some [1, 0]

/-- A generation stub that fails with `APIError` on every attempt. -/
def attempts_const_fail : GenRequest → ℕ → GenOutcome := fun _ _ => GenOutcome.apiError

/-- C1: in the response policy of `GEMINI_response`, the external
search tool is disabled (`tools_config = []`) if and only if the
retrieved context is non-empty and the confidence tier is high; in
every other case (low tier with non-empty context, empty context —
which covers the empty store and embedding failure) the Google-Search
tool is enabled. -/
theorem C1_search_disabled_iff (embed : String → Option (List ℝ))
    (db : Option (List KnowledgeRow)) (user_text : String) :
    ((GEMINI_request embed db user_text).tools_config = [] ↔
      ((query_knowledge_base embed db user_text 5).1 ≠ "" ∧
        (query_knowledge_base embed db user_text 5).2 = true)) ∧
    ((GEMINI_request embed db user_text).tools_config = [] ∨
      (GEMINI_request embed db user_text).tools_config = ["google_search"]) := by
  unfold GEMINI_request
  by_cases hctx : (query_knowledge_base embed db user_text 5).1 = ""
  · simp [hctx]
  · cases hb : (query_knowledge_base embed db user_text 5).2 <;> simp [hctx, hb]

/-- C4: when embedding fails (no vector, or an empty vector under
Python truthiness), or the store read fails, or the store is empty,
`query_knowledge_base` returns the empty context with the low tier;
the modelled function is total, so no exception reaches the caller. -/
theorem C4_failure_empty_low (embed : String → Option (List ℝ))
    (db : Option (List KnowledgeRow)) (query_text : String) (top_k : ℕ)
    (h : embed query_text = none ∨ embed query_text = some [] ∨ db = none ∨
      db = some []) :
    query_knowledge_base embed db query_text top_k = ("", false) := by
  rcases h with h | h | h | h
  · simp [query_knowledge_base, h]
  · simp [query_knowledge_base, h]
  · subst h
    unfold query_knowledge_base
    cases hq : embed query_text with
    | none => rfl
    | some q => cases q with
      | nil => rfl
      | cons q0 qt => rfl
  · subst h
    unfold query_knowledge_base
    cases hq : embed query_text with
    | none => rfl
    | some q => cases q with
      | nil => rfl
      | cons q0 qt => simp [score_rows, sortResults, joinWith, List.insertionSort]

/-- C4 witness: a failing embedder against an empty store. -/
theorem C4_witness :
    query_knowledge_base embed_none (some []) sample_query 5 = ("", false) :=
  C4_failure_empty_low embed_none (some []) sample_query 5 (Or.inl rfl)

/-- C6: `cosine_distance a b` is `1 - dot/(|a| |b|)` whenever both
magnitudes are non-zero (and the denominator is then non-zero, so no
division by zero occurs), and exactly `1.0` when either magnitude is
zero; a magnitude is zero exactly for an all-zero vector. -/
theorem C6_cosine_formula (a b : List ℝ) :
    ((magnitude a = 0 ∨ magnitude b = 0) → cosine_distance a b = 1) ∧
    (magnitude a ≠ 0 → magnitude b ≠ 0 →
      magnitude a * magnitude b ≠ 0 ∧
      cosine_distance a b = 1 - dot_product a b / (magnitude a * magnitude b)) ∧
    (magnitude a = 0 ↔ ∀ x ∈ a, x = 0) := by
  refine ⟨fun h => ?_, fun ha hb => ⟨mul_ne_zero ha hb, ?_⟩, magnitude_eq_zero_iff a⟩
  · unfold cosine_distance
    rw [if_pos h]
  · unfold cosine_distance
    rw [if_neg (by tauto)]

/-- C6 witness: the zero vector forces distance `1`; two non-zero
vectors take the `1 - dot/(|a| |b|)` branch. -/
theorem C6_witness :
    cosine_distance [(0 : ℝ)] [(1 : ℝ), 0] = 1 ∧
    cosine_distance [(1 : ℝ), 0] [(0 : ℝ), 1] =
      1 - dot_product [(1 : ℝ), 0] [(0 : ℝ), 1] /
        (magnitude [(1 : ℝ), 0] * magnitude [(0 : ℝ), 1]) :=
  ⟨(C6_cosine_formula [0] [1, 0]).1 (Or.inl (by rw [magnitude_zero_single])),
    ((C6_cosine_formula [1, 0] [0, 1]).2.1
      (by rw [magnitude_one_zero]; norm_num)
      (by rw [magnitude_zero_one]; norm_num)).2⟩

/-- C7: `add_new_knowledge` fails without touching the store both when
the client is uninitialized and when embedding fails, with distinct
messages for the two causes; on success it appends exactly one new row
holding the content and its vector. -/
theorem C7_add_paths (embed : String → Option (List ℝ)) (write_ok : Bool)
    (store : List KnowledgeRow) (content : String) :
    add_new_knowledge false embed write_ok store content =
      (store, false, client_error_message) ∧
    (embed content = none →
      add_new_knowledge true embed write_ok store content =
        (store, false, embed_error_message)) ∧
    client_error_message ≠ embed_error_message ∧
    (∀ e0 etail, embed content = some (e0 :: etail) →
      add_new_knowledge true embed true store content =
        (store ++ [⟨content, some (e0 :: etail)⟩], true,
          add_success_message content)) := by
  refine ⟨?_, fun h => ?_, by decide, fun e0 etail h => ?_⟩
  · simp [add_new_knowledge]
  · simp [add_new_knowledge, h]
  · simp [add_new_knowledge, h]

/-- C7 witness: client-missing failure, embedding failure, and a
successful single-row insertion, all on concrete inputs. -/
theorem C7_witness :
    add_new_knowledge false embed_none true [] sample_content =
      ([], false, client_error_message) ∧
    add_new_knowledge true embed_none true [] sample_content =
      ([], false, embed_error_message) ∧
    add_new_knowledge true embed_e1 true [] sample_content =
      ([⟨sample_content, some [1]⟩], true, add_success_message sample_content) :=
  ⟨(C7_add_paths embed_none true [] sample_content).1,
    (C7_add_paths embed_none true [] sample_content).2.1 rfl,
    (C7_add_paths embed_e1 true [] sample_content).2.2.2 1 [] rfl⟩

/-- C9: with the code's retry policy (`max_retries = 3`, initial delay
2, doubling), a generation stub that raises `APIError` twice and then
succeeds causes exactly two retries with sleeps of 2 and 4 time-units
and the success value is returned on the third attempt; a stub that
always raises `APIError` is attempted exactly 3 times and the fixed
fallback string is returned instead of an exception. -/
theorem C9_retry_policy (a1 a2 : ℕ → GenOutcome) (v : String)
    (h0 : a1 0 = GenOutcome.apiError) (h1 : a1 1 = GenOutcome.apiError)
    (h2 : a1 2 = GenOutcome.success v) (hv : py_strip v = v)
    (hlen : v.length ≤ 2000) (hfail : ∀ n, a2 n = GenOutcome.apiError) :
    GEMINI_generate a1 = ⟨v, [2, 4], 3⟩ ∧
    GEMINI_generate a2 = ⟨GEMINI_fallback, [2, 4], 3⟩ := by
  constructor
  · simp [GEMINI_generate, attemptLoop, h0, h1, h2, hv, truncate_answer,
      Nat.not_lt.mpr hlen]
  · simp [GEMINI_generate, attemptLoop, hfail]

/-- A whitespace-free sample success text. -/
def ok_text : String := "ok"

/-- A generation stub that raises `APIError` on the first two attempts
and succeeds with `ok_text` on the third. -/
def attempts_fail2_ok : ℕ → GenOutcome := fun n =>
  match n with
  | 2 => GenOutcome.success ok_text
  | _ => GenOutcome.apiError

/-- A generation stub that raises `APIError` on every attempt. -/
def attempts_always_fail : ℕ → GenOutcome := fun _ => GenOutcome.apiError

/-- C9 witness: the two stubbed scenarios on concrete inputs. -/
theorem C9_witness :
    GEMINI_generate attempts_fail2_ok = ⟨ok_text, [2, 4], 3⟩ ∧
    GEMINI_generate attempts_always_fail = ⟨GEMINI_fallback, [2, 4], 3⟩ :=
  C9_retry_policy attempts_fail2_ok attempts_always_fail ok_text rfl rfl rfl
    (by decide) (by decide) (fun _ => rfl)

/-- Concrete evaluation: identical vectors `[1, 0]` are at distance `0`. -/
theorem cosine_10_10 : cosine_distance [(1 : ℝ), 0] [1, 0] = 0 := by
  unfold cosine_distance
  rw [magnitude_one_zero, if_neg (by norm_num)]
  unfold dot_product
  simp [List.zip]

/-- A store with two rows whose vectors tie at distance `1` from the
query `[1, 0]`. -/
def rows_tie : List KnowledgeRow := [⟨"甲知識", some [0, 1]⟩, ⟨"乙知識", some [0, 1]⟩]

/-- A store with a single row sitting exactly at the confidence
threshold distance `0.5` from the query `[1, 0]`. -/
noncomputable def rows_boundary : List KnowledgeRow :=
  [⟨"門檻知識", some [1, Real.sqrt 3]⟩]

/-- A store mixing a dimension-matching row (`match`, vector `[0, 1]`)
with a dimension-mismatched row (`short`, 1-dimensional vector `[1]`),
listed in this scan order. -/
def rows_mixed : List KnowledgeRow := [⟨"match", some [0, 1]⟩, ⟨"short", some [1]⟩]

/-- A store with one row identical to the query vector `[1, 0]`. -/
def rows_close : List KnowledgeRow := [⟨"近知識", some [1, 0]⟩]

/-- C2: against a store with at least one scored item (and a usable
query embedding), the confidence tier is `high` (true) iff the
smallest computed distance is strictly below
`RAG_CONFIDENCE_THRESHOLD`; a minimal distance exactly equal to the
threshold therefore yields `low`, and one strictly below yields
`high`. -/
theorem C2_high_iff_min_lt_threshold (embed : String → Option (List ℝ))
    (db : Option (List KnowledgeRow)) (q : List ℝ) (rows : List KnowledgeRow)
    (query_text : String) (top_k : ℕ)
    (hq : embed query_text = some q) (hqne : q ≠ []) (hdb : db = some rows)
    (hne : score_rows q rows ≠ []) :
    ((query_knowledge_base embed db query_text top_k).2 = true ↔
      ∃ d ∈ (score_rows q rows).map Prod.fst,
        d < RAG_CONFIDENCE_THRESHOLD ∧
        ∀ d' ∈ (score_rows q rows).map Prod.fst, d ≤ d') := by
  obtain ⟨q0, qtail, rfl⟩ : ∃ q0 qtail, q = q0 :: qtail := by
    cases q with
    | nil => exact absurd rfl hqne
    | cons a b => exact ⟨a, b, rfl⟩
  rw [query_eval embed db q0 qtail rows query_text top_k hq hdb]
  cases hs : sortResults (score_rows (q0 :: qtail) rows) with
  | nil =>
    exfalso
    have hp := sortResults_perm (score_rows (q0 :: qtail) rows)
    rw [hs] at hp
    exact hne (List.nil_perm.mp hp)
  | cons best rest =>
    obtain ⟨hbmem, hbmin⟩ := sortResults_head_min hs
    dsimp only
    constructor
    · intro h
      have hlt : best.1 < RAG_CONFIDENCE_THRESHOLD := by
        by_contra hge
        rw [if_neg hge] at h
        exact absurd h Bool.false_ne_true
      refine ⟨best.1, List.mem_map_of_mem Prod.fst hbmem, hlt, ?_⟩
      intro d' hd'
      obtain ⟨y, hy, rfl⟩ := List.mem_map.mp hd'
      exact hbmin y hy
    · rintro ⟨d, hd, hlt, -⟩
      obtain ⟨y, hy, rfl⟩ := List.mem_map.mp hd
      rw [if_pos (lt_of_le_of_lt (hbmin y hy) hlt)]

/-- C2 witness: a single stored item at distance exactly `0.5` (the
threshold) is classified `low`. -/
theorem C2_witness :
    (query_knowledge_base embed_e10 (some rows_boundary) sample_query 5).2 = false := by
  have h := C2_high_iff_min_lt_threshold embed_e10 (some rows_boundary) [1, 0]
    rows_boundary sample_query 5 rfl (List.cons_ne_nil _ _) rfl
    (by simp [score_rows, rows_boundary])
  cases hb : (query_knowledge_base embed_e10 (some rows_boundary) sample_query 5).2 with
  | false => rfl
  | true =>
    exfalso
    obtain ⟨d, hd, hlt, -⟩ := h.mp hb
    have hd' : d = cosine_distance [(1 : ℝ), 0] [1, Real.sqrt 3] := by
      simpa [score_rows, rows_boundary] using hd
    rw [hd', cosine_boundary] at hlt
    norm_num [RAG_CONFIDENCE_THRESHOLD] at hlt

/-- C3: on the normal retrieval path, the scored pairs are sorted by
non-decreasing distance, the sorted list is a permutation of the
scanned pairs, ties between equal distances keep the original scan
order (the equal-distance classes are preserved pointwise by the
sort), and the returned context is the newline-join of the contents of
the first `top_k` sorted pairs. -/
theorem C3_sorted_stable_context (embed : String → Option (List ℝ))
    (db : Option (List KnowledgeRow)) (q : List ℝ) (rows : List KnowledgeRow)
    (query_text : String) (top_k : ℕ)
    (hq : embed query_text = some q) (hqne : q ≠ []) (hdb : db = some rows) :
    List.Sorted byDist (sortResults (score_rows q rows)) ∧
    List.Perm (sortResults (score_rows q rows)) (score_rows q rows) ∧
    (∀ c : ℝ,
      (sortResults (score_rows q rows)).filter (fun p => decide (p.1 = c)) =
        (score_rows q rows).filter (fun p => decide (p.1 = c))) ∧
    (query_knowledge_base embed db query_text top_k).1 =
      joinWith NEWLINE
        (((sortResults (score_rows q rows)).take top_k).map Prod.snd) := by
  obtain ⟨q0, qtail, rfl⟩ : ∃ q0 qtail, q = q0 :: qtail := by
    cases q with
    | nil => exact absurd rfl hqne
    | cons a b => exact ⟨a, b, rfl⟩
  refine ⟨sortResults_sorted _, sortResults_perm _, fun c => ?_, ?_⟩
  · refine sortResults_filter_eq _ (fun a b ha hb => ?_) _
    have ha' : a.1 = c := of_decide_eq_true ha
    have hb' : b.1 = c := of_decide_eq_true hb
    show a.1 ≤ b.1
    rw [ha', hb']
  · rw [query_eval embed db q0 qtail rows query_text top_k hq hdb]

/-- C3 witness: a concrete store with two tied rows. -/
theorem C3_witness :
    (query_knowledge_base embed_e10 (some rows_tie) sample_query 5).1 =
      joinWith NEWLINE
        (((sortResults (score_rows [(1 : ℝ), 0] rows_tie)).take 5).map Prod.snd) :=
  (C3_sorted_stable_context embed_e10 (some rows_tie) [1, 0] rows_tie sample_query 5
    rfl (List.cons_ne_nil _ _) rfl).2.2.2

/-- C10: whenever `query_knowledge_base` reports the high tier, the
returned context is non-empty (given `top_k ≥ 1` and the store
invariant that row contents are non-empty, which both ingestion and
seeding guarantee); checking the tier alone is therefore as strong as
checking the tier together with context non-emptiness. -/
theorem C10_high_tier_context_nonempty (embed : String → Option (List ℝ))
    (db : Option (List KnowledgeRow)) (query_text : String) (top_k : ℕ)
    (htop : 1 ≤ top_k)
    (hcontent : ∀ rows, db = some rows → ∀ r ∈ rows, r.content ≠ "")
    (hhigh : (query_knowledge_base embed db query_text top_k).2 = true) :
    (query_knowledge_base embed db query_text top_k).1 ≠ "" := by
  cases hq : embed query_text with
  | none => simp [query_knowledge_base, hq] at hhigh
  | some q =>
    cases q with
    | nil => simp [query_knowledge_base, hq] at hhigh
    | cons q0 qtail =>
      cases hdb : db with
      | none => simp [query_knowledge_base, hq, hdb] at hhigh
      | some rows =>
        rw [query_eval embed db q0 qtail rows query_text top_k hq hdb] at hhigh
        rw [query_eval embed (some rows) q0 qtail rows query_text top_k hq rfl]
        cases hs : sortResults (score_rows (q0 :: qtail) rows) with
        | nil =>
          rw [hs] at hhigh
          exact absurd hhigh (by simp)
        | cons best rest =>
          have hmem : best ∈ score_rows (q0 :: qtail) rows :=
            (sortResults_head_min hs).1
          obtain ⟨r, hr, hf⟩ := List.mem_filterMap.mp hmem
          have hb2 : best.2 = r.content := by
            cases he : r.embedding_json with
            | none =>
              rw [he] at hf
              exact absurd hf (by simp)
            | some e =>
              rw [he] at hf
              have hbe := Option.some.inj hf
              rw [← hbe]
          obtain ⟨k, rfl⟩ : ∃ k, top_k = k + 1 :=
            ⟨top_k - 1, (Nat.succ_pred_eq_of_pos htop).symm⟩
          dsimp only
          rw [List.take_succ_cons, List.map_cons]
          refine joinWith_cons_ne_empty NEWLINE best.2 _ ?_
          rw [hb2]
          exact hcontent rows hdb r hr

/-- C10 witness: a store whose single row matches the query exactly
(distance `0`, tier high) yields the non-empty context. -/
theorem C10_witness :
    (query_knowledge_base embed_e10 (some rows_close) sample_query 5).1 ≠ "" := by
  have heval : query_knowledge_base embed_e10 (some rows_close) sample_query 5 =
      ("近知識", true) := by
    rw [query_eval embed_e10 (some rows_close) 1 [0] rows_close sample_query 5 rfl rfl]
    have hscore : score_rows ((1 : ℝ) :: [0]) rows_close = [(0, "近知識")] := by
      simp [score_rows, rows_close, cosine_10_10]
    rw [hscore]
    have hsort : sortResults [((0 : ℝ), "近知識")] = [(0, "近知識")] := by
      simp [sortResults, List.insertionSort]
    rw [hsort]
    norm_num [joinWith, NEWLINE, RAG_CONFIDENCE_THRESHOLD]
  refine C10_high_tier_context_nonempty embed_e10 (some rows_close) sample_query 5
    (by norm_num) ?_ (by rw [heval])
  intro rows h r hr
  obtain rfl : rows_close = rows := Option.some.inj h
  obtain rfl : r = ⟨"近知識", some [1, 0]⟩ := List.mem_singleton.mp hr
  decide

/-- C5 counterexample: the claim that a stored vector of mismatched
dimensionality is treated as infinitely distant and never matches is
false.  Against the 2-dimensional query `[1, 0]`, the 1-dimensional
stored vector `[1]` gets distance `0` (a perfect match, because
Python's `zip` silently truncates), while the dimension-matching
vector `[0, 1]` gets distance `1`; consequently the mismatched row
ranks first in the returned context and by itself produces the
high-confidence tier. -/
theorem C5_counterexample :
    cosine_distance [(1 : ℝ), 0] [1] = 0 ∧
    cosine_distance [(1 : ℝ), 0] [0, 1] = 1 ∧
    query_knowledge_base embed_e10 (some rows_mixed) sample_query 5 =
      ("short" ++ NEWLINE ++ "match", true) := by
  refine ⟨cosine_10_1, cosine_10_01, ?_⟩
  rw [query_eval embed_e10 (some rows_mixed) 1 [0] rows_mixed sample_query 5 rfl rfl]
  have hscore : score_rows ((1 : ℝ) :: [0]) rows_mixed =
      [(1, "match"), (0, "short")] := by
    simp [score_rows, rows_mixed, cosine_10_01, cosine_10_1]
  rw [hscore]
  have hsort : sortResults [((1 : ℝ), "match"), (0, "short")] =
      [(0, "short"), (1, "match")] := by
    simp [sortResults, List.insertionSort, List.orderedInsert, byDist]
  rw [hsort]
  norm_num [joinWith, RAG_CONFIDENCE_THRESHOLD]

/-- C5 (amended): a stored vector whose dimensionality differs from
the query's receives no special treatment: it participates in scoring
like every other row, and its distance is computed by the same formula
(over the `zip`-truncated common prefix, with magnitudes over the full
vectors) — in particular it is never "infinitely distant" and, as the
counterexample shows, it can rank above matching-dimensionality
vectors and produce the high tier. -/
theorem C5_mismatched_scored_normally (q e : List ℝ) (rows : List KnowledgeRow)
    (r : KnowledgeRow) (hr : r ∈ rows) (he : r.embedding_json = some e)
    (hlen : e.length ≠ q.length) :
    (cosine_distance q e, r.content) ∈ score_rows q rows ∧
    (magnitude q ≠ 0 → magnitude e ≠ 0 →
      cosine_distance q e = 1 - dot_product q e / (magnitude q * magnitude e)) := by
  constructor
  · refine List.mem_filterMap.mpr ⟨r, hr, ?_⟩
    rw [he]
    rfl
  · intro hq hqe
    unfold cosine_distance
    rw [if_neg (by tauto)]

/-- C5 witness: the 1-dimensional row of `rows_mixed` is scored against
the 2-dimensional query `[1, 0]` by the ordinary formula. -/
theorem C5_witness :
    (cosine_distance [(1 : ℝ), 0] [1], "short") ∈ score_rows [(1 : ℝ), 0] rows_mixed ∧
    cosine_distance [(1 : ℝ), 0] [1] =
      1 - dot_product [(1 : ℝ), 0] [1] /
        (magnitude [(1 : ℝ), 0] * magnitude [(1 : ℝ)]) :=
  ⟨(C5_mismatched_scored_normally [1, 0] [1] rows_mixed ⟨"short", some [1]⟩
      (List.mem_cons_of_mem _ (List.mem_cons_self _ _)) rfl (by decide)).1,
    (C5_mismatched_scored_normally [1, 0] [1] rows_mixed ⟨"short", some [1]⟩
      (List.mem_cons_of_mem _ (List.mem_cons_self _ _)) rfl (by decide)).2
      (by rw [magnitude_one_zero]; norm_num)
      (by rw [magnitude_one]; norm_num)⟩

/-- A whitespace-only ingestion command. -/
def msg_cmd_blank : String := "/新增知識:   "

/-- An ordinary (non-command) user message. -/
def msg_hello : String := "你好"

/-- C8: the dispatcher routes a text message to ingestion exactly when
it starts with the case-sensitive literal `"/新增知識:"`; the ingested
content is everything after the prefix with surrounding whitespace
stripped; whitespace-only content yields the usage message with the
store untouched and no call to the embedder or the store (the result
is independent of `client_ok`, `embed` and `write_ok`); every other
message is routed to `GEMINI_response`. -/
theorem C8_dispatch (client_ok : Bool) (embed : String → Option (List ℝ))
    (write_ok : Bool) (attempts : GenRequest → ℕ → GenOutcome)
    (store : List KnowledgeRow) (user_msg : String) :
    (py_startswith user_msg ADD_COMMAND = false →
      handle_text_message client_ok embed write_ok attempts store user_msg =
        (store, GEMINI_response client_ok embed (some store) attempts user_msg)) ∧
    (py_startswith user_msg ADD_COMMAND = true →
      (py_strip (py_drop user_msg ADD_COMMAND.length) = "" →
        handle_text_message client_ok embed write_ok attempts store user_msg =
          (store, usage_message)) ∧
      (py_strip (py_drop user_msg ADD_COMMAND.length) ≠ "" →
        handle_text_message client_ok embed write_ok attempts store user_msg =
          ((add_new_knowledge client_ok embed write_ok store
              (py_strip (py_drop user_msg ADD_COMMAND.length))).1,
            ingest_reply (add_new_knowledge client_ok embed write_ok store
              (py_strip (py_drop user_msg ADD_COMMAND.length)))))) := by
  refine ⟨fun h => ?_, fun h => ⟨fun he => ?_, fun hne => ?_⟩⟩
  · simp [handle_text_message, h]
  · simp [handle_text_message, h, he]
  · simp [handle_text_message, h, hne]

/-- C8 witness: the whitespace-only command yields the usage message
with the store untouched (for an arbitrary failing embedder, showing
independence), and a plain greeting routes to the response policy. -/
theorem C8_witness :
    handle_text_message true embed_none true attempts_const_fail [] msg_cmd_blank =
      ([], usage_message) ∧
    handle_text_message true embed_none true attempts_const_fail [] msg_hello =
      ([], GEMINI_response true embed_none (some []) attempts_const_fail msg_hello) :=
  ⟨((C8_dispatch true embed_none true attempts_const_fail [] msg_cmd_blank).2
      (by decide)).1 (by decide),
    (C8_dispatch true embed_none true attempts_const_fail [] msg_hello).1 (by decide)⟩
